import Mathlib

/-!
Verification of the npoint-vpn magic-link login protocol and the
email-notification subsystem against their specification.

The definitions below are shallow embeddings of the Python sources under
`app/` (routers/portal.py, routers/email_notifications.py,
models/email_notification.py, models/portal.py, utils/email_notifications.py,
utils/report.py, and the migration files).  The persistence helpers in
`app/db/crud.py` are not part of the provided sources; where a claim depends
on them they are modelled from the specification, and each such definition
carries a doc comment starting with `Modelled from the spec:`.
-/

/-! ## Login-token data model (migration 5c0a0e9d8f0f, spec section 3) -/

/-- A row of the `user_login_tokens` table.  Timestamps are modelled as
natural numbers (seconds); nullable columns as `Option`. -/
structure LoginToken where
  id : Nat
  user_id : Nat
  token_hash : String
  created_at : Nat
  expires_at : Nat
  used_at : Option Nat
  requested_ip : Option String
  requested_user_agent : Option String
  consumed_ip : Option String
  consumed_user_agent : Option String
deriving DecidableEq, Repr

/-- The login-token table. -/
structure TokenStore where
  tokens : List LoginToken
deriving DecidableEq, Repr

/-- Internal error taxonomy of `TokenService.consume` (spec section 4.1). -/
inductive TokenError where
  | NotFound
  | AlreadyUsed
  | Expired
deriving DecidableEq, Repr

/-- Result of a consume attempt: the user id on success, the internal error
kind on failure, and the resulting table state. -/
structure ConsumeResult where
  user : Option Nat
  error : Option TokenError
  store : TokenStore
deriving DecidableEq, Repr

/-- The single-field mutation applied by a successful consume: sets `used_at`
to the current time together with the consuming IP and user-agent. -/
def markConsumed (tok : LoginToken) (now : Nat) (ip ua : Option String) : LoginToken :=
  { tok with used_at := some now, consumed_ip := ip, consumed_user_agent := ua }

/-- Modelled from the spec: `crud.consume_user_login_token` (app/db/crud.py is
not under the provided sources; only its caller `verify_magic_link` in
app/routers/portal.py is).  Spec section 4.1 `consume`: hash the presented
plaintext and look it up by hash; fail with `NotFound` if no row matches;
fail with `AlreadyUsed` if `used_at` is already set; fail with `Expired` if
`now > expires_at`; otherwise atomically set `used_at = now` together with
the consuming IP/user-agent only if the row still has `used_at = null` at
write time (compare-and-set, modelled by the conditional update below), and
return the associated user.  The hash function is a parameter (SHA-256 in
the implementation). -/
def consume_user_login_token (hashFn : String → String) (store : TokenStore)
    (plaintext : String) (now : Nat) (ip ua : Option String) : ConsumeResult :=
  match store.tokens.find? (fun t => t.token_hash == hashFn plaintext) with
  | none => ⟨none, some TokenError.NotFound, store⟩
  | some tok =>
    if tok.used_at.isSome then ⟨none, some TokenError.AlreadyUsed, store⟩
    else if now > tok.expires_at then ⟨none, some TokenError.Expired, store⟩
    else
      ⟨some tok.user_id, none,
        ⟨store.tokens.map (fun t =>
          if t.token_hash == hashFn plaintext && t.used_at == none
          then markConsumed t now ip ua else t)⟩⟩

/-- The compare-and-set update leaves the hash of every row unchanged, so a
lookup by hash after the update finds the updated row. -/
theorem find_after_cas (l : List LoginToken) (h : String) (now : Nat)
    (ip ua : Option String) (tok : LoginToken)
    (hfind : l.find? (fun t => t.token_hash == h) = some tok) :
    (l.map (fun t =>
      if t.token_hash == h && t.used_at == none
      then markConsumed t now ip ua else t)).find? (fun t => t.token_hash == h)
      = some (if tok.used_at == none then markConsumed tok now ip ua else tok) := by
  rw [List.find?_map]
  have hcomp : ((fun t => t.token_hash == h) ∘ fun t =>
      if t.token_hash == h && t.used_at == none then markConsumed t now ip ua else t)
      = (fun t => t.token_hash == h) := by
    funext t
    by_cases hc : (t.token_hash == h && t.used_at == none) = true
    · simp [Function.comp, hc, markConsumed]
    · simp [Function.comp, hc]
  rw [hcomp, hfind]
  have hptok : tok.token_hash = h := by
    have hs := List.find?_some hfind
    simpa using hs
  simp [hptok]

/-- Rows whose `used_at` is already non-null are never modified by a consume
attempt: the compare-and-set condition requires `used_at = null` at write
time. -/
theorem used_token_rows_unchanged (hashFn : String → String) (store : TokenStore)
    (p : String) (n : Nat) (ip ua : Option String) (u : LoginToken)
    (hu : u ∈ store.tokens) (hused : u.used_at.isSome = true) :
    u ∈ (consume_user_login_token hashFn store p n ip ua).store.tokens := by
  unfold consume_user_login_token
  cases hfind : store.tokens.find? (fun t => t.token_hash == hashFn p) with
  | none => simpa using hu
  | some tok =>
    by_cases h1 : tok.used_at.isSome = true
    · simpa [h1] using hu
    · have h1' : tok.used_at.isSome = false := by simpa using h1
      by_cases h2 : n > tok.expires_at
      · simpa [h1', h2] using hu
      · have hne : ¬ (u.token_hash = hashFn p ∧ u.used_at = none) := by
          rintro ⟨-, h0⟩
          rw [h0] at hused
          simp at hused
        simp only [h1', h2, List.mem_map]
        simp only [Bool.false_eq_true, if_false, gt_iff_lt]
        simp [h2, List.mem_map]
        exact ⟨u, hu, by simp [hne]⟩

/-- A consume attempt on a token whose `used_at` is already set fails with
`AlreadyUsed` and leaves the table unchanged. -/
theorem consume_already_used (hashFn : String → String) (s : TokenStore)
    (p : String) (n : Nat) (ip ua : Option String) (tok : LoginToken)
    (hfind : s.tokens.find? (fun t => t.token_hash == hashFn p) = some tok)
    (hused : tok.used_at.isSome = true) :
    consume_user_login_token hashFn s p n ip ua = ⟨none, some TokenError.AlreadyUsed, s⟩ := by
  unfold consume_user_login_token
  rw [hfind]
  simp [hused]

/-- C1: for an issued token that is still unconsumed and unexpired, two
sequential consume calls with the same plaintext behave as: the first
succeeds, returns the token's user, and sets `used_at` to the current time
together with the consuming IP and user-agent through the compare-and-set
update (applied only to rows with `used_at` still null at write time); the
second fails with the internal error `AlreadyUsed` and leaves the table
unchanged; and any row whose `used_at` is already non-null is never modified
by any consume attempt, so `used_at` transitions null to non-null at most
once over the token's lifetime. -/
theorem consume_twice_first_wins
    (hashFn : String → String) (store : TokenStore) (p : String)
    (t1 t2 : Nat) (ip1 ua1 ip2 ua2 : Option String) (tok : LoginToken)
    (hfind : store.tokens.find? (fun t => t.token_hash == hashFn p) = some tok)
    (hunused : tok.used_at = none)
    (hlive : ¬ t1 > tok.expires_at) :
    (consume_user_login_token hashFn store p t1 ip1 ua1).user = some tok.user_id
    ∧ (consume_user_login_token hashFn store p t1 ip1 ua1).error = none
    ∧ (consume_user_login_token hashFn store p t1 ip1 ua1).store.tokens.find?
        (fun t => t.token_hash == hashFn p) = some (markConsumed tok t1 ip1 ua1)
    ∧ (consume_user_login_token hashFn
        (consume_user_login_token hashFn store p t1 ip1 ua1).store p t2 ip2 ua2).user = none
    ∧ (consume_user_login_token hashFn
        (consume_user_login_token hashFn store p t1 ip1 ua1).store p t2 ip2 ua2).error
        = some TokenError.AlreadyUsed
    ∧ (consume_user_login_token hashFn
        (consume_user_login_token hashFn store p t1 ip1 ua1).store p t2 ip2 ua2).store
        = (consume_user_login_token hashFn store p t1 ip1 ua1).store
    ∧ (∀ u ∈ store.tokens, u.used_at.isSome = true →
        ∀ n ip ua, u ∈ (consume_user_login_token hashFn store p n ip ua).store.tokens) := by
  have hcas := find_after_cas store.tokens (hashFn p) t1 ip1 ua1 tok hfind
  have hif : (if tok.used_at == none then markConsumed tok t1 ip1 ua1 else tok)
      = markConsumed tok t1 ip1 ua1 := by simp [hunused]
  rw [hif] at hcas
  have hisused : tok.used_at.isSome = false := by simp [hunused]
  have hr1 : consume_user_login_token hashFn store p t1 ip1 ua1
      = ⟨some tok.user_id, none,
          ⟨store.tokens.map (fun t =>
            if t.token_hash == hashFn p && t.used_at == none
            then markConsumed t t1 ip1 ua1 else t)⟩⟩ := by
    unfold consume_user_login_token
    rw [hfind]
    simp [hisused, hlive]
  have hfind2 : (consume_user_login_token hashFn store p t1 ip1 ua1).store.tokens.find?
      (fun t => t.token_hash == hashFn p) = some (markConsumed tok t1 ip1 ua1) := by
    rw [hr1]
    exact hcas
  have hr2 := consume_already_used hashFn
    (consume_user_login_token hashFn store p t1 ip1 ua1).store p t2 ip2 ua2
    (markConsumed tok t1 ip1 ua1) hfind2 (by simp [markConsumed])
  refine ⟨?_, ?_, hfind2, ?_, ?_, ?_, ?_⟩
  · rw [hr1]
  · rw [hr1]
  · rw [hr2]
  · rw [hr2]
  · rw [hr2]
  · intro u hu hus n ip ua
    exact used_token_rows_unchanged hashFn store p n ip ua u hu hus

/-- Concrete single-token table used to witness the consume theorems. -/
def sampleToken : LoginToken := ⟨1, 7, "tok", 0, 600, none, none, none, none, none⟩

/-- Concrete token table holding only `sampleToken`. -/
def sampleStore : TokenStore := ⟨[sampleToken]⟩

/-- Concrete stand-in for the one-way hash used in the witnesses. -/
def sampleHash : String → String := fun s => s

theorem consume_twice_first_wins_witness :
    (sampleStore.tokens.find? (fun t => t.token_hash == sampleHash "tok") = some sampleToken
      ∧ sampleToken.used_at = none ∧ ¬ (10 > sampleToken.expires_at))
    ∧ (consume_user_login_token sampleHash sampleStore "tok" 10 (some "ip1") (some "ua1")).user
        = some sampleToken.user_id
    ∧ (consume_user_login_token sampleHash
        (consume_user_login_token sampleHash sampleStore "tok" 10 (some "ip1") (some "ua1")).store
        "tok" 20 (some "ip2") (some "ua2")).error = some TokenError.AlreadyUsed :=
  ⟨⟨by decide, rfl, by decide⟩,
   (consume_twice_first_wins sampleHash sampleStore "tok" 10 20 (some "ip1") (some "ua1")
      (some "ip2") (some "ua2") sampleToken (by decide) rfl (by decide)).1,
   (consume_twice_first_wins sampleHash sampleStore "tok" 10 20 (some "ip1") (some "ua1")
      (some "ip2") (some "ua2") sampleToken (by decide) rfl (by decide)).2.2.2.2.1⟩

/-! ## Magic-link HTTP flow (app/routers/portal.py) -/

/-- A registered user as seen by the portal router (`app/db` User row
restricted to the fields the flow reads). -/
structure PortalUser where
  id : Nat
  username : String
  email : Option String
deriving DecidableEq, Repr

/-- `GENERIC_MESSAGE` in app/routers/portal.py line 30. -/
def GENERIC_MESSAGE : String := "If the email is registered, a sign-in link has been sent."

/-- Body of the magic-link request response (`MessageResponse` in
app/models/portal.py). -/
structure MessageResponse where
  detail : String
deriving DecidableEq, Repr

/-- Status code plus body of the HTTP response of `request_magic_link`; the
route decorator fixes the status code to 202 for every value the handler
returns. -/
structure MagicLinkHTTPResponse where
  status_code : Nat
  body : MessageResponse
deriving DecidableEq, Repr

/-- The user-resolution step of `request_magic_link`
(app/routers/portal.py lines 54-58): exact-case lookup first, then, only
when it missed and lowering changes the identifier, a lookup of the
lowercased identifier.  `get_user` is the store lookup
(`crud.get_user`, exact match on the stored identifier). -/
def lookup_user (get_user : String → Option PortalUser) (identifier : String) :
    Option PortalUser :=
  match get_user identifier with
  | some u => some u
  | none =>
    if identifier.toLower ≠ identifier then get_user identifier.toLower else none

/-- Modelled from the spec: `crud.create_user_login_token` (app/db/crud.py is
not under the provided sources).  Spec section 4.1 `issue`: persist only the
hash of the (externally generated) plaintext plus metadata,
`expires_at = now + ttl_minutes`, one new row; the plaintext is returned to
the caller and never stored.  The fresh plaintext is a parameter standing
for the random generator's output. -/
def create_user_login_token (hashFn : String → String) (freshPlain : String)
    (store : TokenStore) (user : PortalUser) (expires_in now : Nat)
    (ip ua : Option String) : String × TokenStore :=
  (freshPlain,
    ⟨store.tokens ++
      [⟨store.tokens.length + 1, user.id, hashFn freshPlain, now,
        now + expires_in * 60, none, ip, ua, none, none⟩]⟩)

/-- Result of one `request_magic_link` call: the HTTP response, the email
send scheduled as a background task (recipient address, username, ttl), if
any, and the resulting token table. -/
structure RequestMagicLinkResult where
  response : MagicLinkHTTPResponse
  scheduled_email : Option (String × String × Nat)
  store : TokenStore
deriving DecidableEq, Repr

/-- `request_magic_link` (app/routers/portal.py lines 42-97): strip the
identifier, resolve the user (with the lowercase fallback), return the fixed
generic 202 response when no email-bearing user matched; otherwise compute
the ttl (config value, or 15 when the config is not positive), create a
login token and schedule the background email send, returning the same fixed
generic 202 response. -/
def request_magic_link (get_user : String → Option PortalUser)
    (hashFn : String → String) (freshPlain : String) (cfg_ttl : Int)
    (store : TokenStore) (raw_identifier : String) (now : Nat)
    (ip ua : Option String) : RequestMagicLinkResult :=
  let identifier := raw_identifier.trim
  match lookup_user get_user identifier with
  | none => ⟨⟨202, ⟨GENERIC_MESSAGE⟩⟩, none, store⟩
  | some dbuser =>
    match dbuser.email with
    | none => ⟨⟨202, ⟨GENERIC_MESSAGE⟩⟩, none, store⟩
    | some em =>
      if em = "" then ⟨⟨202, ⟨GENERIC_MESSAGE⟩⟩, none, store⟩
      else
        let expires_in : Nat := if cfg_ttl > 0 then cfg_ttl.toNat else 15
        let created := create_user_login_token hashFn freshPlain store dbuser
          expires_in now ip ua
        ⟨⟨202, ⟨GENERIC_MESSAGE⟩⟩, some (em, dbuser.username, expires_in), created.2⟩

/-- C2: the magic-link request endpoint answers every request with the same
202 status and the same fixed generic body, whichever way the identifier
resolves (email-bearing user, email-less user, or no user at all), so the
responses in all three cases are byte-identical. -/
theorem request_magic_link_uniform_response
    (get_user : String → Option PortalUser) (hashFn : String → String)
    (freshPlain : String) (cfg_ttl : Int) (store : TokenStore)
    (raw_identifier : String) (now : Nat) (ip ua : Option String) :
    (request_magic_link get_user hashFn freshPlain cfg_ttl store raw_identifier
      now ip ua).response = ⟨202, ⟨GENERIC_MESSAGE⟩⟩ := by
  cases hl : lookup_user get_user raw_identifier.trim with
  | none => simp [request_magic_link, hl]
  | some dbuser =>
    cases he : dbuser.email with
    | none => simp [request_magic_link, hl, he]
    | some em =>
      by_cases hem : em = ""
      · simp [request_magic_link, hl, he, hem]
      · simp [request_magic_link, hl, he, hem]

/-- C8: when the exact-case identifier does not match a registered user, the
resolution falls back to a lookup of the lowercased identifier: the resolved
user is exactly what the lowercase lookup yields (also when lowering leaves
the identifier unchanged, in which case the code skips the redundant second
query), and a user found only by the fallback does get the email scheduled
rather than being treated as no account. -/
theorem lookup_user_lowercase_fallback
    (get_user : String → Option PortalUser) (identifier : String)
    (hmiss : get_user identifier = none) :
    lookup_user get_user identifier = get_user identifier.toLower
    ∧ (∀ (hashFn : String → String) (freshPlain : String) (cfg_ttl : Int)
        (store : TokenStore) (now : Nat) (ip ua : Option String)
        (u : PortalUser) (em : String),
        get_user identifier.toLower = some u → u.email = some em → em ≠ "" →
        identifier.trim = identifier →
        (request_magic_link get_user hashFn freshPlain cfg_ttl store identifier
          now ip ua).scheduled_email = some (em, u.username, if cfg_ttl > 0 then cfg_ttl.toNat else 15)) := by
  have hlk : lookup_user get_user identifier = get_user identifier.toLower := by
    unfold lookup_user
    rw [hmiss]
    by_cases hlow : identifier.toLower ≠ identifier
    · simp [hlow]
    · simp only [ne_eq, not_not] at hlow
      simp [hlow, hmiss]
  refine ⟨hlk, ?_⟩
  intro hashFn freshPlain cfg_ttl store now ip ua u em hfound hemail hne htrim
  simp [request_magic_link, htrim, hlk, hfound, hemail, hne]

theorem lookup_user_lowercase_fallback_witness :
    ((fun s => if s = "alice@x.com" then some (⟨3, "alice", some "alice@x.com"⟩ : PortalUser) else none)
        "Alice@X.com" = none)
    ∧ lookup_user
        (fun s => if s = "alice@x.com" then some (⟨3, "alice", some "alice@x.com"⟩ : PortalUser) else none)
        "Alice@X.com"
      = (fun s => if s = "alice@x.com" then some (⟨3, "alice", some "alice@x.com"⟩ : PortalUser) else none)
          "Alice@X.com".toLower :=
  ⟨by decide,
   (lookup_user_lowercase_fallback
      (fun s => if s = "alice@x.com" then some (⟨3, "alice", some "alice@x.com"⟩ : PortalUser) else none)
      "Alice@X.com" (by decide)).1⟩

/-! ## Magic-link verification redirect (app/routers/portal.py lines 119-135) -/

/-- Modelled from the spec: the error-code strings returned by
`crud.consume_user_login_token` to `verify_magic_link` (crud.py is not under
the provided sources).  Spec sections 4.1 and 7: the internal taxonomy is
NotFound / AlreadyUsed / Expired, and only the expired kind is surfaced as
`"expired"` at the HTTP boundary. -/
def token_error_code : TokenError → String
  | TokenError.NotFound => "not_found"
  | TokenError.AlreadyUsed => "already_used"
  | TokenError.Expired => "expired"

/-- Redirect target chosen by `verify_magic_link` on failure
(app/routers/portal.py line 134):
`"/?login=invalid" if error != "expired" else "/?login=expired"`. -/
def verify_magic_link_failure_redirect (error : String) : String :=
  if error ≠ "expired" then "/?login=invalid" else "/?login=expired"

/-- C3: a failing verification redirects with reason `expired` exactly when
the internal error is `Expired`, and with reason `invalid` for every other
failure; in particular `NotFound` and `AlreadyUsed` produce identical
redirects, so already-used is not externally distinguishable from
not-found. -/
theorem verify_magic_link_redirect_taxonomy (e : TokenError) :
    (verify_magic_link_failure_redirect (token_error_code e) = "/?login=expired"
      ↔ e = TokenError.Expired)
    ∧ (verify_magic_link_failure_redirect (token_error_code e) = "/?login=invalid"
      ↔ e ≠ TokenError.Expired)
    ∧ verify_magic_link_failure_redirect (token_error_code TokenError.NotFound)
      = verify_magic_link_failure_redirect (token_error_code TokenError.AlreadyUsed) := by
  cases e <;> refine ⟨?_, ?_, ?_⟩ <;> simp [verify_magic_link_failure_redirect, token_error_code]

/-! ## SMTP settings validation (app/models/email_notification.py lines 31-37) -/

/-- The `validate_tls_ssl` pydantic field validator on
`EmailSMTPSettingsBase.use_ssl`: reads the already-validated `use_tls` value
(defaulting to `true` when absent) and raises when both flags are set.
Failure is modelled with `Except.error` carrying the raised message. -/
def validate_tls_ssl (use_ssl : Bool) (values_use_tls : Option Bool) :
    Except String Bool :=
  let use_tls := values_use_tls.getD true
  if use_ssl && use_tls then Except.error "use_ssl and use_tls cannot both be enabled"
  else Except.ok use_ssl

/-- Whether a (use_tls, use_ssl) flag pair passes the validator. -/
def validation_accepts (use_tls use_ssl : Bool) : Bool :=
  match validate_tls_ssl use_ssl (some use_tls) with
  | Except.ok _ => true
  | Except.error _ => false

/-- The configuration property C4 claims the validator enforces. -/
def exactly_one_enabled (use_tls use_ssl : Bool) : Prop :=
  (use_tls = true ∧ use_ssl = false) ∨ (use_tls = false ∧ use_ssl = true)

/-- C4 counterexample: the configuration with both flags disabled is accepted
by the validator, yet it does not have exactly one of the two flags
enabled, so "accepts only when exactly one of the flags is enabled" fails on
the code. -/
theorem validate_tls_ssl_claim_counterexample :
    validation_accepts false false = true ∧ ¬ exactly_one_enabled false false := by
  constructor
  · rfl
  · intro h
    rcases h with ⟨h1, -⟩ | ⟨-, h2⟩
    · exact Bool.false_ne_true h1
    · exact Bool.false_ne_true h2

/-- C4 (amended): the validator rejects exactly the configurations with both
the TLS-upgrade flag and the implicit-SSL flag enabled simultaneously; every
other flag pair, including both-disabled, is accepted. -/
theorem validate_tls_ssl_rejects_both (use_tls use_ssl : Bool) :
    validation_accepts use_tls use_ssl = !(use_tls && use_ssl) := by
  cases use_tls <;> cases use_ssl <;> rfl

/-! ## Lifecycle-event fanout (app/utils/report.py) -/

/-- User statuses (app/db/models.UserStatus, as used by `status_change` and
`STATUS_LABELS` in app/models/portal.py). -/
inductive UserStatus where
  | active
  | disabled
  | limited
  | expired
  | on_hold
deriving DecidableEq, Repr

/-- The delivery paths a router entry point can touch: the telegram
reporter, the discord reporter, the in-process notification sink
(`notify`), and the EmailDispatcher (`email_notifications.send`). -/
inductive ReportChannel where
  | telegram
  | discord
  | notify_queue
  | email
deriving DecidableEq, Repr

/-- Failure environment: which external calls raise when invoked. -/
structure ChannelEnv where
  telegram_raises : Bool
  discord_raises : Bool
  smtp_fails : Bool
deriving DecidableEq, Repr

/-- An external reporter call: raises (models a Python exception as
`Except.error`) exactly when the environment says so. -/
def reporter_call (raises : Bool) : Except String Unit :=
  if raises then Except.error "reporter channel raised" else Except.ok ()

/-- The SMTP transport interaction inside `_deliver_email`. -/
def transport_send (fails : Bool) : Except String Unit :=
  if fails then Except.error "SMTP transport failure" else Except.ok ()

/-- `EmailNotificationManager._deliver_email`
(app/utils/email_notifications.py lines 140-159): the transport call is
wrapped in try/except; any exception is logged and converted to `false`, so
the function never raises. -/
def deliver_email (fails : Bool) : Bool :=
  match transport_send fails with
  | Except.ok _ => true
  | Except.error _ => false

/-- `EmailNotificationManager.send` discards `_deliver_email`'s boolean and
returns `None`; delivery failure never escapes `send`. -/
def send_returns (success : Bool) : Except String Unit :=
  Except.ok ()

/-- One step of a router entry point: the channels whose call was reached,
and whether the step completed normally or raised. -/
abbrev DispatchStep := List ReportChannel × Except String Unit

/-- Sequencing with Python exception semantics: if the first step raised and
nothing catches it, the second step is never reached. -/
def dispatch_seq (a b : DispatchStep) : DispatchStep :=
  match a.2 with
  | Except.error e => (a.1, Except.error e)
  | Except.ok _ => (a.1 ++ b.1, b.2)

/-- A `try: ... except Exception: pass` boundary around a step. -/
def dispatch_catch (a : DispatchStep) : DispatchStep :=
  (a.1, Except.ok ())

/-- Invoking the telegram reporter. -/
def telegram_report (env : ChannelEnv) : DispatchStep :=
  ([ReportChannel.telegram], reporter_call env.telegram_raises)

/-- Invoking the discord reporter. -/
def discord_report (env : ChannelEnv) : DispatchStep :=
  ([ReportChannel.discord], reporter_call env.discord_raises)

/-- Publishing the in-process notification record (`notify(...)`). -/
def notify_publish : DispatchStep :=
  ([ReportChannel.notify_queue], Except.ok ())

/-- Invoking `email_notifications.send`, abstracted to its delivery attempt:
the transport outcome is absorbed by `_deliver_email`'s internal try/except,
so the step completes normally in every environment. -/
def email_send_step (env : ChannelEnv) : DispatchStep :=
  ([ReportChannel.email], send_returns (deliver_email env.smtp_fails))

/-- The status-dependent branch of `status_change`
(app/utils/report.py lines 46-65): limited, expired, disabled and active
each publish a notification record and call the email dispatcher; any other
destination status does neither. -/
def status_change_branch (env : ChannelEnv) : UserStatus → DispatchStep
  | UserStatus.limited => dispatch_seq notify_publish (email_send_step env)
  | UserStatus.expired => dispatch_seq notify_publish (email_send_step env)
  | UserStatus.disabled => dispatch_seq notify_publish (email_send_step env)
  | UserStatus.active => dispatch_seq notify_publish (email_send_step env)
  | UserStatus.on_hold => ([], Except.ok ())

/-- `report.status_change` (app/utils/report.py lines 32-69): gated by
NOTIFY_STATUS_CHANGE; telegram call in its own try/except, then the
status-dependent notify/email branch, then the discord call in its own
try/except. -/
def status_change (env : ChannelEnv) (notify_flag : Bool) (st : UserStatus) :
    DispatchStep :=
  if notify_flag then
    dispatch_seq (dispatch_catch (telegram_report env))
      (dispatch_seq (status_change_branch env st)
        (dispatch_catch (discord_report env)))
  else ([], Except.ok ())

/-- `report.user_created` (app/utils/report.py lines 72-107): gated by
NOTIFY_USER_CREATED; telegram (caught), notify, email send, discord
(caught). -/
def user_created (env : ChannelEnv) (notify_flag : Bool) : DispatchStep :=
  if notify_flag then
    dispatch_seq (dispatch_catch (telegram_report env))
      (dispatch_seq notify_publish
        (dispatch_seq (email_send_step env)
          (dispatch_catch (discord_report env))))
  else ([], Except.ok ())

/-- `report.user_updated` (app/utils/report.py lines 110-144): same shape as
`user_created`. -/
def user_updated (env : ChannelEnv) (notify_flag : Bool) : DispatchStep :=
  if notify_flag then
    dispatch_seq (dispatch_catch (telegram_report env))
      (dispatch_seq notify_publish
        (dispatch_seq (email_send_step env)
          (dispatch_catch (discord_report env))))
  else ([], Except.ok ())

/-- `report.user_deleted` (app/utils/report.py lines 147-169): the email
dispatch only happens when a full user payload was supplied. -/
def user_deleted (env : ChannelEnv) (notify_flag : Bool) (user_present : Bool) :
    DispatchStep :=
  if notify_flag then
    dispatch_seq (dispatch_catch (telegram_report env))
      (dispatch_seq notify_publish
        (dispatch_seq (if user_present then email_send_step env else ([], Except.ok ()))
          (dispatch_catch (discord_report env))))
  else ([], Except.ok ())

/-- `report.user_data_usage_reset` (app/utils/report.py lines 172-196). -/
def user_data_usage_reset (env : ChannelEnv) (notify_flag : Bool) : DispatchStep :=
  if notify_flag then
    dispatch_seq (dispatch_catch (telegram_report env))
      (dispatch_seq notify_publish
        (dispatch_seq (email_send_step env)
          (dispatch_catch (discord_report env))))
  else ([], Except.ok ())

/-- `report.user_subscription_revoked` (app/utils/report.py lines 223-249). -/
def user_subscription_revoked (env : ChannelEnv) (notify_flag : Bool) : DispatchStep :=
  if notify_flag then
    dispatch_seq (dispatch_catch (telegram_report env))
      (dispatch_seq notify_publish
        (dispatch_seq (email_send_step env)
          (dispatch_catch (discord_report env))))
  else ([], Except.ok ())

/-- C5: for every failure environment (telegram raising, discord raising,
SMTP transport failing, in any combination), every lifecycle-event router
entry point completes normally (no failure propagates to the triggering
domain operation), and the sequence of delivery paths reached is a fixed
list independent of the environment — so one channel's exception never
prevents the other reporter channel or the EmailDispatcher send from being
attempted. -/
theorem report_entry_points_isolate_failures
    (env : ChannelEnv) (flag : Bool) (st : UserStatus) (user_present : Bool) :
    (status_change env flag st).2 = Except.ok ()
    ∧ (user_created env flag).2 = Except.ok ()
    ∧ (user_updated env flag).2 = Except.ok ()
    ∧ (user_deleted env flag user_present).2 = Except.ok ()
    ∧ (user_data_usage_reset env flag).2 = Except.ok ()
    ∧ (user_subscription_revoked env flag).2 = Except.ok ()
    ∧ (status_change env true st).1
      = [ReportChannel.telegram]
        ++ (status_change_branch ⟨false, false, false⟩ st).1
        ++ [ReportChannel.discord]
    ∧ (user_created env true).1
      = [ReportChannel.telegram, ReportChannel.notify_queue,
         ReportChannel.email, ReportChannel.discord]
    ∧ (user_updated env true).1
      = [ReportChannel.telegram, ReportChannel.notify_queue,
         ReportChannel.email, ReportChannel.discord]
    ∧ (user_deleted env true user_present).1
      = [ReportChannel.telegram, ReportChannel.notify_queue]
        ++ (if user_present then [ReportChannel.email] else [])
        ++ [ReportChannel.discord]
    ∧ (user_data_usage_reset env true).1
      = [ReportChannel.telegram, ReportChannel.notify_queue,
         ReportChannel.email, ReportChannel.discord]
    ∧ (user_subscription_revoked env true).1
      = [ReportChannel.telegram, ReportChannel.notify_queue,
         ReportChannel.email, ReportChannel.discord] := by
  obtain ⟨tg, dc, sm⟩ := env
  cases tg <;> cases dc <;> cases sm <;> cases st <;> cases flag <;>
    cases user_present <;>
    exact ⟨rfl, rfl, rfl, rfl, rfl, rfl, rfl, rfl, rfl, rfl, rfl, rfl⟩

/-! ## Email notification configuration
(app/models/email_notification.py, app/routers/email_notifications.py,
app/utils/email_notifications.py) -/

/-- The closed 12-member trigger enum `EmailNotificationTrigger`
(app/models/email_notification.py lines 7-19). -/
inductive EmailNotificationTrigger where
  | user_created
  | user_updated
  | user_deleted
  | user_limited
  | user_expired
  | user_enabled
  | user_disabled
  | data_usage_reset
  | data_reset_by_next
  | subscription_revoked
  | reached_usage_percent
  | reached_days_left
deriving DecidableEq, Repr

/-- All members of the trigger enum, in declaration order (`for trigger in
EmailNotificationTrigger` iterates in this order). -/
def trigger_all : List EmailNotificationTrigger :=
  [EmailNotificationTrigger.user_created,
   EmailNotificationTrigger.user_updated,
   EmailNotificationTrigger.user_deleted,
   EmailNotificationTrigger.user_limited,
   EmailNotificationTrigger.user_expired,
   EmailNotificationTrigger.user_enabled,
   EmailNotificationTrigger.user_disabled,
   EmailNotificationTrigger.data_usage_reset,
   EmailNotificationTrigger.data_reset_by_next,
   EmailNotificationTrigger.subscription_revoked,
   EmailNotificationTrigger.reached_usage_percent,
   EmailNotificationTrigger.reached_days_left]

/-- A row of `email_smtp_settings` (migration c7c9f1f4f1c0). -/
structure EmailSMTPSettingsRow where
  host : String
  port : Nat
  username : Option String
  password : Option String
  use_tls : Bool
  use_ssl : Bool
  from_email : String
  from_name : Option String
  updated_at : Option Nat
deriving DecidableEq, Repr

/-- The persistent notification-configuration store: the singleton SMTP row
(if any) and the preference rows (one per trigger, unique on trigger). -/
structure NotificationStore where
  smtp : Option EmailSMTPSettingsRow
  preferences : List (EmailNotificationTrigger × Bool)
deriving DecidableEq, Repr

/-- The `SMTPSettings` dataclass (app/utils/email_notifications.py
lines 17-27), as cached by the manager. -/
structure SMTPSettings where
  host : String
  port : Nat
  username : Option String
  password : Option String
  use_tls : Bool
  use_ssl : Bool
  from_email : String
  from_name : Option String
  updated_at : Nat
deriving DecidableEq, Repr

/-- In-memory state of `EmailNotificationManager`
(app/utils/email_notifications.py lines 30-34): `_settings`,
`_preferences` (a dict, empty after construction and invalidation, never
`None`), `_last_loaded`. -/
structure EmailNotificationManagerState where
  settings : Option SMTPSettings
  preferences : List (EmailNotificationTrigger × Bool)
  last_loaded : Option Nat
deriving DecidableEq, Repr

/-- `EmailNotificationManager.__init__`. -/
def manager_init : EmailNotificationManagerState := ⟨none, [], none⟩

/-- `EmailNotificationManager.invalidate`
(app/utils/email_notifications.py lines 36-39). -/
def invalidate (m : EmailNotificationManagerState) : EmailNotificationManagerState :=
  ⟨none, [], none⟩

/-- `EmailNotificationManager._load_configuration`
(app/utils/email_notifications.py lines 41-62): reads the SMTP row and the
preference rows from the store (the straightforward `crud` getters, not
under the provided sources, are modelled as plain reads of the store) and
assigns the fully-built snapshot. -/
def load_configuration (db : NotificationStore) (now : Nat)
    (m : EmailNotificationManagerState) : EmailNotificationManagerState :=
  { settings := db.smtp.map (fun s =>
      ⟨s.host, s.port, s.username, s.password, s.use_tls, s.use_ssl,
        s.from_email, s.from_name, s.updated_at.getD now⟩),
    preferences := db.preferences,
    last_loaded := some now }

/-- `EmailNotificationManager._ensure_configuration`
(app/utils/email_notifications.py lines 64-66): reloads when `_settings` is
`None` (the `_preferences is None` disjunct of the source is never true,
since the dict is initialised to `{}` and reset to `{}`). -/
def ensure_configuration (db : NotificationStore) (now : Nat)
    (m : EmailNotificationManagerState) : EmailNotificationManagerState :=
  if m.settings.isNone then load_configuration db now m else m

/-- Dictionary lookup `self._preferences.get(trigger)`. -/
def pref_lookup (prefs : List (EmailNotificationTrigger × Bool))
    (t : EmailNotificationTrigger) : Option Bool :=
  (prefs.find? (fun p => decide (p.1 = t))).map Prod.snd

/-- `EmailNotificationManager.is_enabled`
(app/utils/email_notifications.py lines 68-70): ensure the configuration is
loaded, then `bool(self._preferences.get(trigger))` — a missing entry reads
as `false`.  Returns the flag and the (possibly reloaded) manager state. -/
def is_enabled (db : NotificationStore) (now : Nat)
    (m : EmailNotificationManagerState) (t : EmailNotificationTrigger) :
    Bool × EmailNotificationManagerState :=
  let mr := ensure_configuration db now m
  ((pref_lookup mr.preferences t).getD false, mr)

/-- The pydantic update payload `EmailSMTPSettingsUpdate`
(app/models/email_notification.py lines 45-46); `none` in an optional field
means the field was absent or null in the request. -/
structure EmailSMTPSettingsUpdate where
  host : String
  port : Nat
  username : Option String
  password : Option String
  use_tls : Bool
  use_ssl : Bool
  from_email : String
  from_name : Option String
deriving DecidableEq, Repr

/-- The `smtp_payload` dict of `update_email_notification_config` after
`model_dump(exclude_none=True)` and the router's normalisation
(app/routers/email_notifications.py lines 69-81).  For the optional string
columns, the outer `Option` is key presence and the inner `Option` is the
value (`some none` = key present with value `None`). -/
structure SMTPPayloadDict where
  host : String
  port : Nat
  username : Option (Option String)
  password : Option (Option String)
  use_tls : Bool
  use_ssl : Bool
  from_email : String
  from_name : Option (Option String)
deriving DecidableEq, Repr

/-- `model_dump(exclude_none=True)` on one optional field: absent/null
fields are dropped, others keep their value. -/
def dump_optional (v : Option String) : Option (Option String) :=
  match v with
  | none => none
  | some s => some (some s)

/-- The empty-string normalisation of lines 70-73: a present empty string is
replaced by `None` (the key stays present). -/
def normalize_empty_string (e : Option (Option String)) : Option (Option String) :=
  match e with
  | some (some s) => if s = "" then some none else some (some s)
  | other => other

/-- The `smtp_payload` construction of
`update_email_notification_config` (lines 69-81): dump with
`exclude_none`, blank out empty username/from_name, and apply the password
rule — a present password becomes `password or None` (so `""` becomes a
present `None`), an absent password stays absent unless no settings row
exists yet, in which case an explicit `None` is inserted. -/
def build_smtp_payload (existing : Option EmailSMTPSettingsRow)
    (p : EmailSMTPSettingsUpdate) : SMTPPayloadDict :=
  { host := p.host,
    port := p.port,
    username := normalize_empty_string (dump_optional p.username),
    use_tls := p.use_tls,
    use_ssl := p.use_ssl,
    from_email := p.from_email,
    from_name := normalize_empty_string (dump_optional p.from_name),
    password :=
      match dump_optional p.password with
      | some (some s) => some (if s = "" then none else some s)
      | some none => some none
      | none => if existing.isNone then some none else none }

/-- Modelled from the spec: `crud.upsert_email_smtp_settings`
(app/db/crud.py is not under the provided sources).  Spec section 6: the
write applies the supplied fields to the singleton SMTP record, creating it
when absent; "a secret value of empty-but-present is treated as `no
change`, while an explicitly supplied non-empty secret replaces the stored
one" — with the router normalising an empty-but-present secret to a present
null, the present-null secret leaves the stored secret untouched on an
existing record. -/
def upsert_email_smtp_settings (existing : Option EmailSMTPSettingsRow)
    (d : SMTPPayloadDict) (now : Nat) : EmailSMTPSettingsRow :=
  match existing with
  | none =>
    { host := d.host, port := d.port,
      username := d.username.getD none,
      password := d.password.getD none,
      use_tls := d.use_tls, use_ssl := d.use_ssl,
      from_email := d.from_email,
      from_name := d.from_name.getD none,
      updated_at := some now }
  | some st =>
    { host := d.host, port := d.port,
      username := d.username.getD st.username,
      password :=
        match d.password with
        | none => st.password
        | some none => st.password
        | some (some s) => some s,
      use_tls := d.use_tls, use_ssl := d.use_ssl,
      from_email := d.from_email,
      from_name := d.from_name.getD st.from_name,
      updated_at := some now }

/-- The `preference_payload` dict of `update_email_notification_config`
(lines 84-87): every trigger defaults to `false`, then the request's
preference list is layered on top (for duplicate triggers in the request
list the last entry wins, as for a Python dict built from the list). -/
def build_preference_payload (prefs : List (EmailNotificationTrigger × Bool)) :
    EmailNotificationTrigger → Bool :=
  fun t => ((prefs.reverse.find? (fun p => decide (p.1 = t))).map Prod.snd).getD false

/-- Modelled from the spec: `crud.update_email_notification_preferences`
(app/db/crud.py is not under the provided sources).  Spec section 3:
NotificationPreference is one row per trigger kind, unique on trigger; the
write persists the given enabled flag for every trigger of the payload. -/
def update_email_notification_preferences (db : NotificationStore)
    (payload : EmailNotificationTrigger → Bool) : NotificationStore :=
  { db with preferences := trigger_all.map (fun t => (t, payload t)) }

/-- The PUT handler `update_email_notification_config`
(app/routers/email_notifications.py lines 59-95): normalise the SMTP
payload, upsert the SMTP row, persist the totalised preference payload, and
invalidate the in-memory cache. -/
def update_email_notification_config (db : NotificationStore)
    (m : EmailNotificationManagerState) (smtp : EmailSMTPSettingsUpdate)
    (prefs : List (EmailNotificationTrigger × Bool)) (now : Nat) :
    NotificationStore × EmailNotificationManagerState :=
  let payload := build_smtp_payload db.smtp smtp
  let settings := upsert_email_smtp_settings db.smtp payload now
  let db1 : NotificationStore := { db with smtp := some settings }
  let db2 := update_email_notification_preferences db1 (build_preference_payload prefs)
  (db2, invalidate m)

/-- Looking a trigger up in rows built totally over the enum yields exactly
the payload's value for that trigger. -/
theorem pref_lookup_total (f : EmailNotificationTrigger → Bool)
    (t : EmailNotificationTrigger) :
    pref_lookup (trigger_all.map (fun s => (s, f s))) t = some (f t) := by
  cases t <;> rfl

/-- C6: a notification-configuration write invalidates the in-memory cache
(the manager state after the write is the empty sentinel), and the very next
`is_enabled` call reloads the configuration from the persistent store
(stamping a fresh load time) and returns the newly written value for the
trigger — whatever stale snapshot the manager held before the write. -/
theorem cache_invalidation_no_stale_read
    (db : NotificationStore) (m : EmailNotificationManagerState)
    (smtp : EmailSMTPSettingsUpdate)
    (prefs : List (EmailNotificationTrigger × Bool))
    (t : EmailNotificationTrigger) (wnow rnow : Nat) :
    (update_email_notification_config db m smtp prefs wnow).2.settings = none
    ∧ (is_enabled (update_email_notification_config db m smtp prefs wnow).1 rnow
        (update_email_notification_config db m smtp prefs wnow).2 t).1
      = build_preference_payload prefs t
    ∧ (is_enabled (update_email_notification_config db m smtp prefs wnow).1 rnow
        (update_email_notification_config db m smtp prefs wnow).2 t).2.last_loaded
      = some rnow := by
  refine ⟨rfl, ?_, ?_⟩
  · show (pref_lookup (ensure_configuration
        (update_email_notification_config db m smtp prefs wnow).1 rnow
        (invalidate m)).preferences t).getD false = build_preference_payload prefs t
    rw [show ensure_configuration (update_email_notification_config db m smtp prefs wnow).1
        rnow (invalidate m)
      = load_configuration (update_email_notification_config db m smtp prefs wnow).1
        rnow (invalidate m) from rfl]
    show (pref_lookup (trigger_all.map
        (fun s => (s, build_preference_payload prefs s))) t).getD false
      = build_preference_payload prefs t
    rw [pref_lookup_total]
    rfl
  · rfl

/-- C7: in a notification-configuration write against an existing SMTP
record, a password supplied as the empty string (empty-but-present) leaves
the stored secret unchanged, while a non-empty supplied password replaces
the stored one. -/
theorem smtp_password_empty_means_no_change
    (db : NotificationStore) (m : EmailNotificationManagerState)
    (p : EmailSMTPSettingsUpdate)
    (prefs : List (EmailNotificationTrigger × Bool)) (now : Nat)
    (st : EmailSMTPSettingsRow) (s : String)
    (hdb : db.smtp = some st) (hs : s ≠ "") :
    ((update_email_notification_config db m { p with password := some "" }
        prefs now).1.smtp.map (fun r => r.password)) = some st.password
    ∧ ((update_email_notification_config db m { p with password := some s }
        prefs now).1.smtp.map (fun r => r.password)) = some (some s) := by
  constructor
  · simp [update_email_notification_config, update_email_notification_preferences,
      build_smtp_payload, dump_optional, upsert_email_smtp_settings, hdb]
  · simp [update_email_notification_config, update_email_notification_preferences,
      build_smtp_payload, dump_optional, upsert_email_smtp_settings, hdb, hs]

/-- Concrete SMTP row used by the configuration-write witnesses. -/
def sampleSMTPRow : EmailSMTPSettingsRow :=
  ⟨"smtp.example.com", 587, none, some "oldpass", true, false,
    "noreply@example.com", none, none⟩

/-- Concrete configuration store holding `sampleSMTPRow`. -/
def sampleNotifStore : NotificationStore := ⟨some sampleSMTPRow, []⟩

/-- Concrete SMTP update payload (no password supplied). -/
def sampleSMTPUpdate : EmailSMTPSettingsUpdate :=
  ⟨"smtp.example.com", 587, none, none, true, false, "noreply@example.com", none⟩

theorem smtp_password_empty_means_no_change_witness :
    (sampleNotifStore.smtp = some sampleSMTPRow ∧ "newpass" ≠ "")
    ∧ ((update_email_notification_config sampleNotifStore manager_init
        { sampleSMTPUpdate with password := some "" } [] 0).1.smtp.map
          (fun r => r.password)) = some sampleSMTPRow.password
    ∧ ((update_email_notification_config sampleNotifStore manager_init
        { sampleSMTPUpdate with password := some "newpass" } [] 0).1.smtp.map
          (fun r => r.password)) = some (some "newpass") :=
  ⟨⟨rfl, by decide⟩,
   (smtp_password_empty_means_no_change sampleNotifStore manager_init
      sampleSMTPUpdate [] 0 sampleSMTPRow "newpass" rfl (by decide)).1,
   (smtp_password_empty_means_no_change sampleNotifStore manager_init
      sampleSMTPUpdate [] 0 sampleSMTPRow "newpass" rfl (by decide)).2⟩

/-- C10: the preference payload built by the configuration write assigns
`enabled = false` to every trigger absent from the request's preference
list; the trigger enum has exactly 12 members, all of them covered, and the
persisted preference rows after the write list exactly the 12 enum members,
with the absent trigger stored as `false`. -/
theorem preference_payload_total_default_false
    (db : NotificationStore) (prefs : List (EmailNotificationTrigger × Bool))
    (t : EmailNotificationTrigger)
    (habsent : t ∉ prefs.map Prod.fst) :
    build_preference_payload prefs t = false
    ∧ trigger_all.length = 12
    ∧ (∀ s : EmailNotificationTrigger, s ∈ trigger_all)
    ∧ (update_email_notification_preferences db
        (build_preference_payload prefs)).preferences.map Prod.fst = trigger_all
    ∧ pref_lookup (update_email_notification_preferences db
        (build_preference_payload prefs)).preferences t = some false := by
  have h1 : build_preference_payload prefs t = false := by
    unfold build_preference_payload
    have hnone : prefs.reverse.find? (fun p => decide (p.1 = t)) = none := by
      rw [List.find?_eq_none]
      intro x hx
      simp only [decide_eq_true_eq]
      intro he
      exact habsent (List.mem_map.mpr ⟨x, List.mem_reverse.mp hx, he⟩)
    rw [hnone]
    rfl
  refine ⟨h1, rfl, ?_, ?_, ?_⟩
  · intro s
    cases s <;> simp [trigger_all]
  · rfl
  · show pref_lookup (trigger_all.map
      (fun s => (s, build_preference_payload prefs s))) t = some false
    rw [pref_lookup_total, h1]

theorem preference_payload_total_default_false_witness :
    (EmailNotificationTrigger.user_deleted
        ∉ ([(EmailNotificationTrigger.user_created, true)].map Prod.fst))
    ∧ build_preference_payload [(EmailNotificationTrigger.user_created, true)]
        EmailNotificationTrigger.user_deleted = false :=
  ⟨by decide,
   (preference_payload_total_default_false ⟨none, []⟩
      [(EmailNotificationTrigger.user_created, true)]
      EmailNotificationTrigger.user_deleted (by decide)).1⟩

/-! ## Message rendering (app/utils/email_notifications.py lines 161-332) -/

/-- `.value` of a `UserStatus` enum member. -/
def status_value : UserStatus → String
  | UserStatus.active => "active"
  | UserStatus.disabled => "disabled"
  | UserStatus.limited => "limited"
  | UserStatus.expired => "expired"
  | UserStatus.on_hold => "on_hold"

/-- The fields of `UserResponse` that `_render` and its helpers read. -/
structure UserResponseModel where
  username : String
  email : Option String
  status : UserStatus
  data_limit : Option Nat
  expire : Option Nat
deriving DecidableEq, Repr

/-- The context dict passed to `_render`: `by` (already reduced by the
callers in report.py to a username string or None), `reason`, `percent`
and `days`.  `percent` is a float in the source; only its `is not None`
presence is branched on, so it is carried as its already-rendered decimal
text. -/
structure RenderContext where
  by_actor : Option String
  reason : Option String
  percent : Option String
  days : Option Int
deriving DecidableEq, Repr

/-- `identifier = user.email or user.username` (an empty email string is
falsy in Python). -/
def or_identifier (u : UserResponseModel) : String :=
  match u.email with
  | some e => if e = "" then u.username else e
  | none => u.username

/-- `_format_expire` (lines 325-332): `0` and `None` are both falsy; the
`strftime` rendering of a timestamp is the parameter `strf` (its `except`
fallback to "Unknown" is part of the parameter's behaviour). -/
def format_expire (strf : Nat → String) : Option Nat → String
  | none => "No expiration"
  | some 0 => "No expiration"
  | some e => strf e

/-- `_format_user_details` (lines 301-304): `user.data_limit` is falsy for
`None` and `0`; `fmtBytes` stands for `_format_bytes` (floating-point
`{value:.2f}` unit formatting, kept as a parameter). -/
def format_user_details (fmtBytes strf : Nat → String) (u : UserResponseModel) : String :=
  let data_limit := match u.data_limit with
    | none => "Unlimited"
    | some 0 => "Unlimited"
    | some n => fmtBytes n
  "Status: " ++ status_value u.status ++ "\nData limit: " ++ data_limit
    ++ "\nExpires: " ++ format_expire strf u.expire

/-- `_format_actor` (lines 306-315), for the string-or-None actor the
report-layer callers supply: falsy actors give no line. -/
def format_actor : Option String → Option String
  | none => none
  | some s => if s = "" then none else some ("Changed by: " ++ s)

/-- `_wrap_message` (lines 297-299): drop falsy lines (None and empty
strings) and join the greeting, the surviving lines and the sign-off with
blank lines. -/
def wrap_message (identifier : String) (lines : List (Option String)) : String :=
  let filtered_lines := lines.filterMap (fun l =>
    match l with
    | none => none
    | some s => if s = "" then none else some s)
  String.intercalate "\n\n"
    (("Hello " ++ identifier ++ ",")
      :: (filtered_lines ++ ["\nRegards,", "Your VPN Administrator"]))

/-- `_render` (lines 161-295): the trigger-keyed subject/body table.  The
match is total over the closed enum, matching the if/elif chain (whose
`else` branch returning empty strings is unreachable for enum members). -/
def render_message (fmtBytes strf : Nat → String)
    (trigger : EmailNotificationTrigger) (u : UserResponseModel)
    (ctx : RenderContext) : String × String :=
  let identifier := or_identifier u
  let base_details := format_user_details fmtBytes strf u
  match trigger with
  | EmailNotificationTrigger.user_created =>
    ("Your VPN access is ready",
     wrap_message identifier
       [some "Your account has been created successfully.", some base_details,
        format_actor ctx.by_actor])
  | EmailNotificationTrigger.user_updated =>
    ("Your VPN account was updated",
     wrap_message identifier
       [some "Your account settings were updated.", some base_details,
        format_actor ctx.by_actor])
  | EmailNotificationTrigger.user_deleted =>
    ("Your VPN account was removed",
     wrap_message identifier
       [some "Your access has been revoked and the account was removed from the system.",
        format_actor ctx.by_actor])
  | EmailNotificationTrigger.user_limited =>
    ("Your VPN account reached its limit",
     wrap_message identifier
       [some "Your account is limited because the allocated data has been used.",
        some base_details])
  | EmailNotificationTrigger.user_expired =>
    ("Your VPN account expired",
     wrap_message identifier
       [some "Your subscription has expired.", some base_details])
  | EmailNotificationTrigger.user_enabled =>
    ("Your VPN access is active again",
     wrap_message identifier
       [some "Your account has been enabled.", some base_details,
        format_actor ctx.by_actor])
  | EmailNotificationTrigger.user_disabled =>
    ("Your VPN access was disabled",
     wrap_message identifier
       [some "Your account has been disabled.",
        (match ctx.reason with
         | none => none
         | some r => if r = "" then none else some ("Reason: " ++ r)),
        format_actor ctx.by_actor])
  | EmailNotificationTrigger.data_usage_reset =>
    ("Your VPN data usage was reset",
     wrap_message identifier
       [some "Your data usage has been reset.", some base_details,
        format_actor ctx.by_actor])
  | EmailNotificationTrigger.data_reset_by_next =>
    ("Your VPN plan switched to the next cycle",
     wrap_message identifier
       [some "Your account has been refreshed according to the next plan schedule.",
        some base_details])
  | EmailNotificationTrigger.subscription_revoked =>
    ("Your subscription links were revoked",
     wrap_message identifier
       [some "Subscription links were revoked. You will need to request new ones.",
        format_actor ctx.by_actor])
  | EmailNotificationTrigger.reached_usage_percent =>
    ("Your VPN usage alert",
     wrap_message identifier
       [ctx.percent.map (fun p => "You have used " ++ p ++ "% of your available data."),
        some base_details])
  | EmailNotificationTrigger.reached_days_left =>
    ("Your VPN subscription is ending soon",
     wrap_message identifier
       [ctx.days.map (fun d =>
          "You have " ++ toString d ++ " day(s) remaining on your subscription."),
        some base_details])

/-- The rendering gate in `send` (lines 87-89):
`if not subject or not body: return` — a send is skipped exactly when the
rendered subject or body is the empty string. -/
def send_skips_rendered (subject body : String) : Bool :=
  subject.isEmpty || body.isEmpty

/-- `String.intercalate.go` never shrinks its accumulator. -/
theorem intercalate_go_length_ge (s : String) (l : List String) (acc : String) :
    acc.length ≤ (String.intercalate.go acc s l).length := by
  induction l generalizing acc with
  | nil => simp [String.intercalate.go]
  | cons a as ih =>
    calc acc.length ≤ (acc ++ s ++ a).length := by
          simp [String.length_append]
          omega
      _ ≤ (String.intercalate.go (acc ++ s ++ a) s as).length := ih (acc ++ s ++ a)
      _ = (String.intercalate.go acc s (a :: as)).length := rfl

/-- A wrapped message always starts with the greeting, so it is never the
empty string. -/
theorem wrap_message_ne_empty (identifier : String) (lines : List (Option String)) :
    wrap_message identifier lines ≠ "" := by
  intro hcontra
  have h0 := congrArg String.length hcontra
  have hge : ("Hello " ++ identifier ++ ",").length
      ≤ (wrap_message identifier lines).length :=
    intercalate_go_length_ge "\n\n" _ _
  rw [h0] at hge
  have h6 : ("Hello ").length = 6 := rfl
  have h1 : (",").length = 1 := rfl
  have hz : ("").length = 0 := rfl
  rw [hz] at hge
  simp [String.length_append, h6, h1] at hge

/-- A string other than `""` has `isEmpty = false`. -/
theorem isEmpty_false_of_ne (s : String) (h : s ≠ "") : s.isEmpty = false := by
  rw [Bool.eq_false_iff]
  intro htrue
  exact h ((String.isEmpty_iff s).mp htrue)

/-- C9: for `reached_usage_percent` and `reached_days_left`, when the
required numeric context value is absent the rendered body omits only the
numeric line — the message keeps the greeting, the user-details summary and
the sign-off — and the send is not skipped (the subject is the fixed
non-empty string and the wrapped body is never empty); in general the
rendering gate in `send` skips exactly when the rendered subject or body is
fully empty. -/
theorem numeric_missing_line_omitted_still_sent
    (fmtBytes strf : Nat → String) (u : UserResponseModel) (ctx : RenderContext)
    (hp : ctx.percent = none) (hd : ctx.days = none) :
    render_message fmtBytes strf EmailNotificationTrigger.reached_usage_percent u ctx
      = ("Your VPN usage alert",
         wrap_message (or_identifier u) [some (format_user_details fmtBytes strf u)])
    ∧ render_message fmtBytes strf EmailNotificationTrigger.reached_days_left u ctx
      = ("Your VPN subscription is ending soon",
         wrap_message (or_identifier u) [some (format_user_details fmtBytes strf u)])
    ∧ send_skips_rendered
        (render_message fmtBytes strf EmailNotificationTrigger.reached_usage_percent u ctx).1
        (render_message fmtBytes strf EmailNotificationTrigger.reached_usage_percent u ctx).2
      = false
    ∧ send_skips_rendered
        (render_message fmtBytes strf EmailNotificationTrigger.reached_days_left u ctx).1
        (render_message fmtBytes strf EmailNotificationTrigger.reached_days_left u ctx).2
      = false
    ∧ (∀ s b : String, send_skips_rendered s b = true ↔ (s = "" ∨ b = "")) := by
  obtain ⟨cby, creason, cpercent, cdays⟩ := ctx
  subst hp
  subst hd
  have hskip : ∀ s b : String, send_skips_rendered s b = true ↔ (s = "" ∨ b = "") := by
    intro s b
    simp [send_skips_rendered, String.isEmpty_iff]
  refine ⟨rfl, rfl, ?_, ?_, hskip⟩
  · show ("Your VPN usage alert".isEmpty
      || (wrap_message (or_identifier u)
          [none, some (format_user_details fmtBytes strf u)]).isEmpty) = false
    rw [isEmpty_false_of_ne _ (wrap_message_ne_empty _ _)]
    rfl
  · show ("Your VPN subscription is ending soon".isEmpty
      || (wrap_message (or_identifier u)
          [none, some (format_user_details fmtBytes strf u)]).isEmpty) = false
    rw [isEmpty_false_of_ne _ (wrap_message_ne_empty _ _)]
    rfl

/-- Concrete user used by the rendering witness. -/
def sampleRenderUser : UserResponseModel :=
  ⟨"alice", some "alice@x.com", UserStatus.active, none, none⟩

/-- Concrete context with both numeric values absent. -/
def sampleEmptyContext : RenderContext := ⟨none, none, none, none⟩

theorem numeric_missing_line_omitted_still_sent_witness :
    (sampleEmptyContext.percent = none ∧ sampleEmptyContext.days = none)
    ∧ render_message (fun _ => "1.00 KB") (fun _ => "2025-01-01 00:00 UTC")
        EmailNotificationTrigger.reached_usage_percent sampleRenderUser sampleEmptyContext
      = ("Your VPN usage alert",
         wrap_message (or_identifier sampleRenderUser)
           [some (format_user_details (fun _ => "1.00 KB")
              (fun _ => "2025-01-01 00:00 UTC") sampleRenderUser)])
    ∧ send_skips_rendered
        (render_message (fun _ => "1.00 KB") (fun _ => "2025-01-01 00:00 UTC")
          EmailNotificationTrigger.reached_days_left sampleRenderUser sampleEmptyContext).1
        (render_message (fun _ => "1.00 KB") (fun _ => "2025-01-01 00:00 UTC")
          EmailNotificationTrigger.reached_days_left sampleRenderUser sampleEmptyContext).2
      = false :=
  ⟨⟨rfl, rfl⟩,
   (numeric_missing_line_omitted_still_sent (fun _ => "1.00 KB")
      (fun _ => "2025-01-01 00:00 UTC") sampleRenderUser sampleEmptyContext rfl rfl).1,
   (numeric_missing_line_omitted_still_sent (fun _ => "1.00 KB")
      (fun _ => "2025-01-01 00:00 UTC") sampleRenderUser sampleEmptyContext rfl rfl).2.2.2.1⟩
